import Mathlib

/-!
Verification development for the CACAO knowledge-base backend.

The Python backend (FastAPI + MongoDB + pydantic) is shallowly embedded:
pydantic models become Lean structures, router handlers become pure
functions over an explicit store state, fallible handlers return
`Except`, and the wall clock / uuid generator are passed as explicit
parameters.  RFC3339 timestamp strings are modelled by the instant they
denote (a `Nat`), since every comparison in the code first parses them
into `datetime` values.  `Dict[str, Any]` JSON blobs that the code only
passes through untouched are modelled as opaque `String` payloads.
-/

namespace Cacao

/-- A timestamp string, modelled by the instant it denotes.  The pydantic
`Timestamp` type is an RFC3339 string; every comparison in the backend
parses such strings to `datetime` first, so the order on instants is the
order the code computes with. -/
abbrev Timestamp := Nat

/-- An opaque JSON value, standing in for Python `Any` in the
`Dict[str, Any]` extension maps that the backend never inspects. -/
abbrev JsonBlob := String

/- models/playbook.py: ExternalReference -/
structure ExternalReference where
  name : String
  description : Option String := none
  source : Option String := none
  url : Option String := none
  external_id : Option String := none
  reference_id : Option String := none
deriving DecidableEq, Repr

/- models/playbook.py: PlaybookProcessingSummary -/
structure PlaybookProcessingSummary where
  manual_playbook : Option Bool := none
  external_playbooks : Option Bool := none
  parallel_processing : Option Bool := none
  if_logic : Option Bool := none
  while_logic : Option Bool := none
  switch_logic : Option Bool := none
  temporal_logic : Option Bool := none
  data_markings : Option Bool := none
  digital_signatures : Option Bool := none
  countersigned_signature : Option Bool := none
  extensions : Option Bool := none
deriving DecidableEq, Repr

/- models/playbook.py: Variable -/
structure Variable where
  type : String
  description : Option String := none
  value : Option String := none
  constant : Option Bool := none
  external : Option Bool := none
deriving DecidableEq, Repr

/- models/playbook.py: WorkflowStepType ("end" is a Lean keyword, hence end_) -/
inductive WorkflowStepType where
  | start
  | end_
  | action
  | playbook_action
  | parallel
  | if_condition
  | while_condition
  | switch_condition
deriving DecidableEq, Repr

/- models/playbook.py: Command -/
structure Command where
  type : String
  description : Option String := none
  version : Option String := none
  playbook_activity : Option String := none
  external_references : Option (List ExternalReference) := none
  command : Option String := none
  command_b64 : Option String := none
  headers : Option (List (String × String)) := none
  content : Option String := none
  content_b64 : Option String := none
deriving DecidableEq, Repr

/- models/playbook.py: WorkflowStep -/
structure WorkflowStep where
  type : WorkflowStepType
  name : Option String := none
  description : Option String := none
  external_references : Option (List ExternalReference) := none
  delay : Option Int := none
  timeout : Option Int := none
  step_variables : Option (List (String × Variable)) := none
  owner : Option String := none
  on_completion : Option String := none
  on_success : Option String := none
  on_failure : Option String := none
  commands : Option (List Command) := none
  agent : Option String := none
  targets : Option (List String) := none
  in_args : Option (List String) := none
  out_args : Option (List String) := none
  playbook_id : Option String := none
  playbook_version : Option String := none
  next_steps : Option (List String) := none
  condition : Option String := none
  on_true : Option String := none
  on_false : Option String := none
  switch : Option String := none
  cases : Option (List (String × String)) := none
  step_extensions : Option (List (String × JsonBlob)) := none
deriving DecidableEq, Repr

/- models/playbook.py: AuthenticationInfo -/
structure AuthenticationInfo where
  type : String
  name : Option String := none
  description : Option String := none
  authentication_info_extensions : Option (List (String × JsonBlob)) := none
  username : Option String := none
  user_id : Option String := none
  password : Option String := none
  oauth_header : Option String := none
  token : Option String := none
  kms : Option Bool := none
  kms_key_identifier : Option String := none
deriving DecidableEq, Repr

/- models/playbook.py: CivicLocation -/
structure CivicLocation where
  name : Option String := none
  description : Option String := none
  building_details : Option String := none
  network_details : Option String := none
  region : Option String := none
  country : Option String := none
  administrative_area : Option String := none
  city : Option String := none
  street_address : Option String := none
  postal_code : Option String := none
  latitude : Option String := none
  longitude : Option String := none
  precision : Option String := none
deriving DecidableEq, Repr

/- models/playbook.py: Contact -/
structure Contact where
  email : Option (List (String × String)) := none
  phone : Option (List (String × String)) := none
  contact_details : Option String := none
deriving DecidableEq, Repr

/- models/playbook.py: AddressType -/
inductive AddressType where
  | dname
  | ipv4
  | ipv6
  | l2mac
  | vlan
  | url
deriving DecidableEq, Repr

/- models/playbook.py: AgentTarget -/
structure AgentTarget where
  type : String
  name : String
  description : Option String := none
  location : Option CivicLocation := none
  agent_target_extensions : Option (List (String × JsonBlob)) := none
  contact : Option Contact := none
  logical : Option (List String) := none
  sector : Option String := none
  address : Option (List (AddressType × List String)) := none
  port : Option String := none
  authentication_info : Option String := none
  category : Option (List String) := none
deriving DecidableEq, Repr

/- models/playbook.py: ExtensionDefinition -/
structure ExtensionDefinition where
  type : String
  name : String
  description : Option String := none
  created_by : String
  my_schema : String
  version : String
  external_references : Option (List ExternalReference) := none
deriving DecidableEq, Repr

/- models/playbook.py: DataMarkingType -/
inductive DataMarkingType where
  | marking_statement
  | marking_tlp
  | marking_iep
deriving DecidableEq, Repr

/- models/playbook.py: DataMarkingTlpLevel -/
inductive DataMarkingTlpLevel where
  | tlp_red
  | tlp_amber
  | tlp_amber_strict
  | tlp_green
  | tlp_clear
deriving DecidableEq, Repr

/- models/playbook.py: DataMarking -/
structure DataMarking where
  type : DataMarkingType
  id : String
  name : Option String := none
  description : Option String := none
  created_by : String
  created : String
  revoked : Option Bool := none
  valid_from : Option Timestamp := none
  valid_until : Option Timestamp := none
  labels : Option (List String) := none
  external_references : Option (List ExternalReference) := none
  marking_extensions : Option (List (String × JsonBlob)) := none
  statement : Option String := none
  tlpv2_level : Option DataMarkingTlpLevel := none
  tlp : Option String := none
  iep_version : Option Int := none
  start_date : Option Timestamp := none
  end_date : Option Timestamp := none
  encrypt_in_transit : Option String := none
  permitted_actions : Option String := none
  affected_party_notifications : Option String := none
  attribution : Option String := none
  unmodified_resale : Option String := none
deriving DecidableEq, Repr

/- models/playbook.py: Signature.  The model is recursive through its
optional countersignature field `signature : Signature | None`; the
non-recursive fields are grouped in SignatureFields and the optional
recursive field is inlined into two constructors (`leaf` for None,
`counter` for a present countersignature), which is the same data laid
out so that decidable equality is derivable. -/
structure SignatureFields where
  type : String
  id : String
  created_by : Option String := none
  created : Timestamp
  modified : Timestamp
  revoked : Option Bool := none
  signee : String
  valid_from : Option Timestamp := none
  valid_until : Option Timestamp := none
  related_to : String
  related_version : Timestamp
  hash_algorithm : String
  algorithm : String
  public_key : Option String := none
  public_cert_chain : Option (List String) := none
  cert_url : Option String := none
  thumbprint : Option String := none
  value : String
deriving DecidableEq, Repr

inductive Signature where
  | leaf (fields : SignatureFields)
  | counter (fields : SignatureFields) (signature : Signature)
deriving DecidableEq, Repr

/- models/playbook.py: Playbook -/
structure Playbook where
  type : String
  spec_version : String
  id : String
  name : String
  description : Option String := none
  playbook_types : Option (List String) := none
  playbook_activities : Option (List String) := none
  playbook_processing_summary : Option PlaybookProcessingSummary := none
  created_by : String
  created : Timestamp
  modified : Timestamp
  revoked : Option Bool := none
  valid_from : Option Timestamp := none
  valid_until : Option Timestamp := none
  derived_from : Option (List String) := none
  related_to : Option (List String) := none
  priority : Option Int := none
  severity : Option Int := none
  impact : Option Int := none
  industry_sectors : Option (List String) := none
  labels : Option (List String) := none
  external_references : Option (List ExternalReference) := none
  markings : Option (List String) := none
  playbook_variables : Option (List (String × Variable)) := none
  workflow_start : String
  workflow_exception : Option String := none
  workflow : Option (List (String × WorkflowStep)) := none
  playbook_extensions : Option (List (String × JsonBlob)) := none
  authentication_info_definitions : Option (List (String × AuthenticationInfo)) := none
  agent_definitions : Option (List (String × AgentTarget)) := none
  target_definitions : Option (List (String × AgentTarget)) := none
  extension_definitions : Option (List (String × ExtensionDefinition)) := none
  data_marking_definitions : Option (List (String × DataMarking)) := none
  signatures : Option (List Signature) := none
deriving DecidableEq, Repr

/- models/stix.py: the playbook property-extension block carried by a STIX
course-of-action object.  The playbook_base64 field holds
base64.b64encode(json.dumps(playbook.model_dump(exclude_none=True))):
an injective serialization whose b64decode/json.loads deserialization
yields back the dumped dict, and whose field lookups
(`playbook_data.get`) return exactly the field values of the playbook
itself (None for an excluded field), so the serialized payload is
modelled by the playbook value it denotes.  One dumped field does NOT
revalidate on reconstruction: ExtensionDefinition declares
my_schema with alias "schema", model_dump emits the attribute key
"my_schema", and the pydantic validation of the Playbook(...) call in
stix_to_playbook (populate_by_name unset) requires the alias key
"schema", so any non-empty dumped extension_definitions mapping fails
validation; that failure path is modelled explicitly by
dumped_extension_definitions_validate / stix_to_playbook_validated
below. -/
structure PlaybookExtension where
  extension_type : String
  playbook_id : String
  created : Timestamp
  modified : Timestamp
  playbook_creator : String
  revoked : Option Bool := none
  labels : Option (List String) := none
  description : Option String := none
  playbook_valid_from : Option Timestamp := none
  playbook_valid_until : Option Timestamp := none
  playbook_creation_time : Timestamp
  playbook_impact : Option Int := none
  playbook_severity : Option Int := none
  playbook_priority : Option Int := none
  playbook_type : Option (List String) := none
  playbook_standard : String
  playbook_abstraction : String
  playbook_base64 : Playbook
deriving DecidableEq, Repr

/- models/stix.py: StixPlaybook; the extensions dict is an association list
in insertion order, matching the iteration order next(iter(...)) sees. -/
structure StixPlaybook where
  type : String
  spec_version : String
  id : String
  created_by_ref : String
  created : Timestamp
  modified : Timestamp
  name : String
  description : Option String := none
  extensions : List (String × PlaybookExtension)
deriving DecidableEq, Repr

/- models/stix.py: Envelope -/
structure Envelope where
  more : Option Bool := none
  next : Option String := none
  objects : List StixPlaybook
deriving DecidableEq, Repr

/-- utils.get_current_datetime_str: the current UTC time rendered as an
RFC3339 string; modelled as the instant passed in for "now". -/
def get_current_datetime_str (now : Timestamp) : Timestamp := now

/-- routers/taxii.py create_stix_coa_with_playbook_extension.  The fresh
extension-definition uuid and the export wall-clock are generated inside
the Python function; they are passed here as explicit parameters. -/
def create_stix_coa_with_playbook_extension (now : Timestamp) (ext_uuid : String)
    (playbook : Playbook) (coa_id : String) : StixPlaybook :=
  { type := "course-of-action"
    spec_version := "2.1"
    id := coa_id
    created_by_ref := playbook.created_by
    created := get_current_datetime_str now
    modified := get_current_datetime_str now
    name := "playbook"
    description := playbook.description
    extensions :=
      [("extension-definition--" ++ ext_uuid,
        { extension_type := "property-extension"
          playbook_id := playbook.id
          created := playbook.created
          modified := playbook.modified
          playbook_creator := playbook.created_by
          revoked := playbook.revoked
          labels := playbook.labels
          description := playbook.description
          playbook_valid_from := playbook.valid_from
          playbook_valid_until := playbook.valid_until
          playbook_creation_time := playbook.created
          playbook_impact := playbook.impact
          playbook_severity := playbook.severity
          playbook_priority := playbook.priority
          playbook_type := playbook.playbook_types
          playbook_standard := "cacao"
          playbook_abstraction := "template"
          playbook_base64 := playbook })] }

/-- routers/taxii.py playbook_to_stix: allocates a fresh COA id (uuid passed
explicitly) and builds the STIX object. -/
def playbook_to_stix (now : Timestamp) (coa_uuid ext_uuid : String)
    (playbook : Playbook) : StixPlaybook :=
  create_stix_coa_with_playbook_extension now ext_uuid playbook
    ("course-of-action--" ++ coa_uuid)

/-- The exception stix_to_playbook raises when the extensions dict is empty:
next(iter({})) raises StopIteration (and next(iter(None)) raises TypeError
when the key is absent); either way no playbook is returned and the caller
surfaces a 500. -/
inductive DecodeFailure where
  | emptyExtensions
deriving DecidableEq, Repr

/-- The Playbook value routers/taxii.py stix_to_playbook constructs from a
STIX object and one chosen extension block.  Fields the constructor call
passes as None literals are none here, and playbook_activities is not
passed at all so it takes its model default (None). -/
def playbook_from_extension (stix_playbook : StixPlaybook)
    (extension : PlaybookExtension) : Playbook :=
  let playbook_data := extension.playbook_base64
  { type := playbook_data.type
    spec_version := playbook_data.spec_version
    id := extension.playbook_id
    name := stix_playbook.name
    description := stix_playbook.description
    playbook_types := extension.playbook_type
    created_by := extension.playbook_creator
    created := extension.created
    modified := extension.modified
    revoked := extension.revoked
    valid_from := extension.playbook_valid_from
    valid_until := extension.playbook_valid_until
    playbook_processing_summary := none
    derived_from := none
    related_to := none
    priority := extension.playbook_priority
    severity := extension.playbook_severity
    impact := extension.playbook_impact
    industry_sectors := none
    labels := extension.labels
    external_references := none
    markings := none
    playbook_variables := none
    workflow_start := playbook_data.workflow_start
    workflow_exception := playbook_data.workflow_exception
    workflow := playbook_data.workflow
    playbook_extensions := playbook_data.playbook_extensions
    authentication_info_definitions := playbook_data.authentication_info_definitions
    agent_definitions := playbook_data.agent_definitions
    target_definitions := playbook_data.target_definitions
    extension_definitions := playbook_data.extension_definitions
    data_marking_definitions := playbook_data.data_marking_definitions
    signatures := playbook_data.signatures }

/-- routers/taxii.py stix_to_playbook: next(iter(extensions)) takes the
first extension key in iteration order, however many blocks are present;
an empty extensions dict makes next raise. -/
def stix_to_playbook (stix_playbook : StixPlaybook) :
    Except DecodeFailure Playbook :=
  match stix_playbook.extensions with
  | [] => .error .emptyExtensions
  | (_, extension) :: _ => .ok (playbook_from_extension stix_playbook extension)

/-- The ways the full decode can fail: next(iter({})) raising on an empty
extensions dict, or the pydantic ValidationError raised by the
Playbook(...) constructor call on the deserialized payload. -/
inductive StixDecodeException where
  | emptyExtensions
  | validationError
deriving DecidableEq, Repr

/-- Whether the model_dump output of an extension_definitions mapping
passes the pydantic validation of the Playbook(...) reconstruction.
model_dump(exclude_none=True) serializes ExtensionDefinition.my_schema
under its attribute key "my_schema", but validation (populate_by_name is
not set on the model) accepts only the alias key "schema", so every
entry of a dumped extension_definitions mapping fails to validate: only
an absent or empty mapping passes.  Every other dumped Playbook field
revalidates to the same value. -/
def dumped_extension_definitions_validate :
    Option (List (String × ExtensionDefinition)) → Bool
  | some (_ :: _) => false
  | _ => true

/-- routers/taxii.py stix_to_playbook with the pydantic validation of its
Playbook(...) constructor call made explicit: the first extension block
is selected as in stix_to_playbook (the extension-policy layer kept
abstract there), and the reconstruction succeeds only when the dumped
extension_definitions of the payload revalidate; otherwise the
constructor raises a ValidationError and no playbook is returned. -/
def stix_to_playbook_validated (stix_playbook : StixPlaybook) :
    Except StixDecodeException Playbook :=
  match stix_playbook.extensions with
  | [] => .error .emptyExtensions
  | (_, extension) :: _ =>
    if dumped_extension_definitions_validate
        extension.playbook_base64.extension_definitions then
      .ok (playbook_from_extension stix_playbook extension)
    else .error .validationError

/- models/execution.py: StatusType -/
inductive StatusType where
  | successfully_executed
  | failed
  | ongoing
  | server_side_error
  | client_side_error
  | timeout_error
  | exception_condition_error
  | await_user_input
deriving DecidableEq, Repr

/- models/execution.py: Execution (a document of db.executions) -/
structure Execution where
  playbook_id : String
  execution_id : String
  status : StatusType
  start_time : Nat
  end_time : Option Nat := none
  runtime : Option Nat := none
deriving DecidableEq, Repr

/-- The HTTP errors the routers raise (HTTPException status codes in the
comments). -/
inductive ApiError where
  | notFound                -- 404
  | forbiddenRevoked        -- 403, "Cannot update a revoked playbook."
  | badModifiedOrder        -- 400, modified must be more recent than created
  | staleModified           -- 400, modified must be more recent than stored modified
  | playbookNotUpdated      -- 400, "Playbook not updated"
  | historyNotFound         -- 404, history playbooks not found
  | internalServerError     -- 500 (transport failures and catch-all handlers)
deriving DecidableEq, Repr

/-- The outcome of the POST to the SOARCA engine inside trigger_playbook:
either an httpx transport failure, or a 2xx JSON body with execution_id
and payload (the engine-reported playbook id). -/
inductive EngineCall where
  | transport_failure
  | ok (execution_id : String) (payload : String)
deriving DecidableEq, Repr

/-- What a successful trigger_playbook call produces: the response body,
the records inserted into db.executions, and the background monitor tasks
started (execution_id, start_time).  The response is returned without
waiting for any monitor to run. -/
structure TriggerResult where
  response_playbook_id : String
  response_execution_id : String
  inserted : List Execution
  monitors : List (String × Nat)
deriving DecidableEq, Repr

/-- routers/soarca.py trigger_playbook.  The httpx.HTTPError branch raises a
500 before anything is inserted; on success exactly one Ongoing record is
inserted with start_time = now and one monitor task is scheduled. -/
def trigger_playbook (call : EngineCall) (now : Nat) :
    Except ApiError TriggerResult :=
  match call with
  | .transport_failure => .error .internalServerError
  | .ok execution_id payload =>
    let playbook_id := payload
    let start_time := now
    .ok { response_playbook_id := playbook_id
          response_execution_id := execution_id
          inserted := [{ playbook_id := playbook_id
                         execution_id := execution_id
                         status := .ongoing
                         start_time := start_time }]
          monitors := [(execution_id, start_time)] }

/-- One attempt of the GET to the SOARCA reporter inside fetch_report. -/
inductive FetchAttempt where
  | success (status : StatusType)  -- 2xx with a JSON body carrying status
  | http_failure                   -- httpx.HTTPError
  | client_failure                 -- any other exception
deriving DecidableEq, Repr

/-- The exceptions the monitoring loop can raise, matching the three
except-clauses of monitor_execution. -/
inductive MonitorExc where
  | timeout   -- asyncio.TimeoutError from wait_for
  | http      -- httpx.HTTPError
  | client    -- any other Exception
deriving DecidableEq, Repr

/-- routers/soarca.py fetch_report under
tenacity retry(stop_after_attempt(3), wait_fixed(5), reraise=True):
up to three attempts with fixed spacing, rethrowing the failure of the final
attempt if all three fail.  attempts gives the outcome of each attempt. -/
def fetch_report (attempts : Nat → FetchAttempt) :
    Except MonitorExc StatusType :=
  match attempts 0 with
  | .success s => .ok s
  | _ =>
    match attempts 1 with
    | .success s => .ok s
    | _ =>
      match attempts 2 with
      | .success s => .ok s
      | .http_failure => .error .http
      | .client_failure => .error .client

/-- The inner monitoring_loop coroutine of monitor_execution.  env gives
the fetch-attempt outcomes of each poll iteration; fuel is the number of
whole poll iterations the asyncio.wait_for budget still permits, its
exhaustion modelling cancellation with asyncio.TimeoutError.  The loop
exits with the first non-ongoing reported status, raises the fetch
failure after exhausted retries, and otherwise sleeps and polls again. -/
def monitoring_loop (env : Nat → Nat → FetchAttempt) (iter : Nat) :
    Nat → Except MonitorExc StatusType
  | 0 => .error .timeout
  | fuel + 1 =>
    match fetch_report (env iter) with
    | .error e => .error e
    | .ok s =>
      if s = .ongoing then monitoring_loop env (iter + 1) fuel
      else .ok s

/-- One update_execution write: the $set document applied to the execution
record. -/
structure ExecUpdate where
  execution_id : String
  status : StatusType
  end_time : Nat
  runtime : Nat
deriving DecidableEq, Repr

/-- routers/soarca.py update_execution. -/
def update_execution (execution_id : String) (status : StatusType)
    (end_time : Nat) (runtime : Nat) : ExecUpdate :=
  { execution_id := execution_id, status := status
    end_time := end_time, runtime := runtime }

/-- routers/soarca.py monitor_execution: runs the monitoring loop under the
timeout budget and converts every outcome - normal terminal status,
timeout, http failure after retries, and any other exception - into an
update_execution write.  The returned list is the complete sequence of
record writes the task performs; returning a plain value (never an
exception) models that the task propagates nothing to its caller.
end_time is the finalization wall-clock (datetime.now at the write). -/
def monitor_execution (execution_id : String) (start_time : Nat)
    (timeout_fuel : Nat) (env : Nat → Nat → FetchAttempt)
    (end_time : Nat) : List ExecUpdate :=
  match monitoring_loop env 0 timeout_fuel with
  | .ok s =>
    [update_execution execution_id s end_time (end_time - start_time)]
  | .error .timeout =>
    [update_execution execution_id .timeout_error end_time (end_time - start_time)]
  | .error .http =>
    [update_execution execution_id .server_side_error end_time (end_time - start_time)]
  | .error .client =>
    [update_execution execution_id .client_side_error end_time (end_time - start_time)]

/-- The persistent state the playbooks router touches: the playbooks
collection and the history collection, each a list of documents in
insertion (natural) order.  The Mongo _id of a history document is its index
in the list (ObjectIds are insertion-ordered). -/
structure Store where
  playbooks : List Playbook
  history : List Playbook
deriving DecidableEq, Repr

/-- Mongo find_one({"id": id}): the first document whose id field matches. -/
def find_one_by_id (l : List Playbook) (id : String) : Option Playbook :=
  l.find? (fun p => p.id == id)

/-- Mongo update_one(filter, {"$set": dump}) where dump sets every Playbook
field (model_dump with no exclusions), so the matched document becomes the
new value wholesale.  Replaces the first document matching the filter and
returns the resulting list together with modified_count: 1 when a matched
document actually changed, 0 when nothing matched or the $set was a
no-op. -/
def update_one (filter : Playbook → Bool) (new : Playbook) :
    List Playbook → List Playbook × Nat
  | [] => ([], 0)
  | d :: ds =>
    if filter d then (new :: ds, if new = d then 0 else 1)
    else
      let r := update_one filter new ds
      (d :: r.1, r.2)

/-- Modelled from the spec: utils.get_datetime_from_timestamp is imported by
routers/playbooks.py but absent from these sources; per the spec it parses
an RFC3339 timestamp string into the datetime it denotes.  Timestamps are
modelled by the denoted instant, so the parse is the identity and is
order-faithful. -/
def get_datetime_from_timestamp (t : Timestamp) : Nat := t

/-- Modelled from the spec: utils.get_current_timestamp is imported by
routers/playbooks.py but absent from these sources; it renders the current
UTC time as a timestamp string, modelled as the instant passed for
"now". -/
def get_current_timestamp (now : Nat) : Timestamp := now

/-- routers/playbooks.py update_playbook.  Check order as in the source:
existence, revoked, modified/created order, staleness against the stored
modified, then a store update scoped by (id, created, created_by) and, on
modified_count == 1, a history append.  Every error path returns before
any write, so an error leaves the Store of the caller untouched. -/
def update_playbook (id : String) (playbook_update : Playbook) (s : Store) :
    Except ApiError Store :=
  match find_one_by_id s.playbooks id with
  | none => .error .notFound
  | some existing_playbook =>
    if existing_playbook.revoked = some true then .error .forbiddenRevoked
    else
      let created_time := get_datetime_from_timestamp playbook_update.created
      let modified_time := get_datetime_from_timestamp playbook_update.modified
      let existing_modified_time :=
        get_datetime_from_timestamp existing_playbook.modified
      if modified_time ≤ created_time then .error .badModifiedOrder
      else if modified_time ≤ existing_modified_time then .error .staleModified
      else
        let r := update_one
          (fun p => p.id == id
            && p.created == playbook_update.created
            && p.created_by == playbook_update.created_by)
          playbook_update s.playbooks
        if r.2 = 1 then
          .ok { playbooks := r.1, history := s.history ++ [playbook_update] }
        else .error .playbookNotUpdated

/-- routers/playbooks.py rollback_playbook.  Looks up the history document
by Mongo _id (its index), requires a live playbook for its id, rejects a
revoked one, stamps modified = get_current_timestamp(), then updates the
live document scoped by id alone and appends the restored snapshot to
history when modified_count == 1.  No staleness, timestamp-order or
(created, created_by) lineage check is performed. -/
def rollback_playbook (history_id : Nat) (now : Nat) (s : Store) :
    Except ApiError Store :=
  match s.history.get? history_id with
  | none => .error .historyNotFound
  | some history_playbook =>
    match find_one_by_id s.playbooks history_playbook.id with
    | none => .error .notFound
    | some existing_playbook =>
      if existing_playbook.revoked = some true then .error .forbiddenRevoked
      else
        let restored :=
          { history_playbook with modified := get_current_timestamp now }
        let r := update_one (fun p => p.id == history_playbook.id)
          restored s.playbooks
        if r.2 = 1 then
          .ok { playbooks := r.1, history := s.history ++ [restored] }
        else .error .notFound

/-- Mongo find({"id": id}) over the history collection: all history
documents for the playbook id, in insertion order (oldest first). -/
def historyForId (hist : List Playbook) (id : String) : List Playbook :=
  hist.filter (fun p => p.id == id)

/-- routers/playbooks.py get_playbook_history: fetches at most limit
history documents for the id, then deletes the last element of the
fetched list ("the current"), 404ing when the fetch is empty. -/
def get_playbook_history (id : String) (limit : Nat) (s : Store) :
    Except ApiError (List Playbook) :=
  let playbook_history := (historyForId s.history id).take limit
  if playbook_history.length > 0 then .ok playbook_history.dropLast
  else .error .historyNotFound

/-- A document of the sharings collection: the sharing ledger entry of one
playbook. -/
structure Sharing where
  playbook_id : String
  shared_versions : List Timestamp
deriving DecidableEq, Repr

/-- pipelines/sharings_pipeline.py to_share_pipeline, the per-playbook
"shared" flag it computes: true iff the modified value of the playbook occurs
in the shared_versions of its sharings entry, with $ifNull supplying []
when the lookup finds nothing. -/
def shared_flag (sharings : List Sharing) (p : Playbook) : Bool :=
  match sharings.find? (fun e => e.playbook_id == p.id) with
  | none => false
  | some e => e.shared_versions.contains p.modified

/-- How many times a modified value is recorded as shared for a playbook id
across the ledger. -/
def shared_count (sharings : List Sharing) (id : String) (m : Timestamp) : Nat :=
  ((sharings.filter (fun e => e.playbook_id == id)).map
    (fun e => e.shared_versions.count m)).sum

/-- routers/taxii.py share_playbook: converts the playbook to STIX and posts
it wrapped in an envelope; any failure becomes a 500.  The sharings
collection is neither read nor written, modelled by threading the sharings
state through unchanged; transport_ok is whether the TAXII POST
succeeds. -/
def share_playbook (transport_ok : Bool) (sharings : List Sharing)
    (now : Timestamp) (coa_uuid ext_uuid : String) (playbook : Playbook) :
    Except ApiError (Envelope × List Sharing) :=
  if transport_ok then
    .ok ({ objects := [playbook_to_stix now coa_uuid ext_uuid playbook] },
         sharings)
  else .error .internalServerError

/-- The Mongo filter placed under the "created" key by search_playbooks:
either the $gte lower bound or the $lte upper bound (whose operand is
created_until even when that is None). -/
inductive CreatedFilter where
  | gte (d : Nat)
  | lte (d : Option Nat)
deriving DecidableEq, Repr

/-- The Mongo query document search_playbooks builds, one optional entry
per key it may set. -/
structure SearchQuery where
  name : Option String := none              -- {"$regex": name, "$options": "i"}
  created_by : Option String := none
  created : Option CreatedFilter := none
  revoked : Option Bool := none
  labels : Option (List String) := none     -- {"$regex": "|".join(escaped)}
deriving DecidableEq, Repr

/-- Python truthiness of an optional string: None and "" are falsy. -/
def truthyStr : Option String → Bool
  | none => false
  | some s => !s.isEmpty

/-- Python truthiness of an optional list: None and [] are falsy. -/
def truthyList : Option (List String) → Bool
  | none => false
  | some l => !l.isEmpty

/-- routers/playbooks.py search_playbooks, the query-construction part.
Both datetime branches test created_after (the second condition repeats
the first), so a provided created_after writes {"$gte": created_after}
and is immediately overwritten by {"$lte": created_until}; and
`if revoked:` is Python truthiness, so revoked=False adds no filter. -/
def search_playbooks_query (name : Option String) (created_by : Option String)
    (created_after : Option Nat) (created_until : Option Nat)
    (revoked : Option Bool) (labels : Option (List String)) : SearchQuery :=
  let query : SearchQuery := {}
  let query := if truthyStr name then { query with name := name } else query
  let query :=
    if truthyStr created_by then { query with created_by := created_by }
    else query
  let query :=
    match created_after with
    | some a => { query with created := some (.gte a) }
    | none => query
  let query :=
    match created_after with
    | some _ => { query with created := some (.lte created_until) }
    | none => query
  let query :=
    if revoked = some true then { query with revoked := revoked } else query
  let query :=
    if truthyList labels then { query with labels := labels } else query
  query

/-! Concrete sample data used by witnesses and counterexamples. -/

/-- A minimal valid playbook (created 10, modified 11). -/
def pb0 : Playbook :=
  { type := "playbook"
    spec_version := "cacao-2.0"
    id := "playbook--p1"
    name := "base"
    created_by := "identity--alice"
    created := 10
    modified := 11
    workflow_start := "start--1" }

/-- A later version of pb0 (modified 12). -/
def pb1 : Playbook := { pb0 with name := "base-v2", modified := 12 }

/-- A yet later version of pb0 (modified 13). -/
def pb2 : Playbook := { pb0 with name := "base-v3", modified := 13 }

/-- A playbook exercising the fields the codec does not round-trip. -/
def pbRich : Playbook :=
  { type := "playbook"
    spec_version := "cacao-2.0"
    id := "playbook--p2"
    name := "containment-plan"
    created_by := "identity--alice"
    created := 10
    modified := 11
    workflow_start := "start--1"
    playbook_activities := some ["identify-indicators"]
    derived_from := some ["playbook--p0"]
    industry_sectors := some ["energy"]
    markings := some ["marking-definition--m1"] }

/-- pb0 with the revoked flag set. -/
def pbRevoked : Playbook := { pb0 with revoked := some true }

/-- A concrete extension definition (my_schema dumps under the key
"my_schema" though validation expects the alias "schema"). -/
def extDef0 : ExtensionDefinition :=
  { type := "extension-definition"
    name := "ext"
    created_by := "identity--alice"
    my_schema := "https://example.com/schema"
    version := "1.0" }

/-- A playbook carrying one extension definition, on which the codec
round trip fails to revalidate. -/
def pbExt : Playbook :=
  { pb0 with
    id := "playbook--p3"
    extension_definitions := some [("extension-definition--d1", extDef0)] }

/-- A stored version of pb0 whose modified timestamp (100) lies in the
future relative to the rollback clock used below (50). -/
def pbFuture : Playbook := { pb0 with name := "future", modified := 100 }

/-- The document rollback at clock 50 restores from the pb0 snapshot. -/
def pbRestored : Playbook := { pb0 with modified := 50 }

/-- Store before the C3 witness update. -/
def s3 : Store := { playbooks := [pb0], history := [pb0] }

/-- Store after the C3 witness update. -/
def s3' : Store := { playbooks := [pb1], history := [pb0, pb1] }

/-- Store holding a revoked playbook. -/
def sRev : Store := { playbooks := [pbRevoked], history := [pbRevoked] }

/-- Store before the C5 rollback: live document modified = 100, history
holding the old snapshot (index 0) and the current version. -/
def s5 : Store := { playbooks := [pbFuture], history := [pb0, pbFuture] }

/-- Store after rollback_playbook 0 50 s5. -/
def s5' : Store :=
  { playbooks := [pbRestored], history := [pb0, pbFuture, pbRestored] }

/-- Store with three history entries for one id (current is pb2). -/
def s8 : Store := { playbooks := [pb2], history := [pb0, pb1, pb2] }

/-- An extension block wrapping pb0. -/
def ext1 : PlaybookExtension :=
  { extension_type := "property-extension"
    playbook_id := pb0.id
    created := pb0.created
    modified := pb0.modified
    playbook_creator := pb0.created_by
    playbook_creation_time := pb0.created
    playbook_standard := "cacao"
    playbook_abstraction := "template"
    playbook_base64 := pb0 }

/-- A second, different extension block wrapping pbRich. -/
def ext2 : PlaybookExtension :=
  { extension_type := "property-extension"
    playbook_id := pbRich.id
    created := pbRich.created
    modified := pbRich.modified
    playbook_creator := pbRich.created_by
    playbook_creation_time := pbRich.created
    playbook_standard := "cacao"
    playbook_abstraction := "template"
    playbook_base64 := pbRich }

/-- A STIX object carrying two extension blocks. -/
def s9multi : StixPlaybook :=
  { type := "course-of-action"
    spec_version := "2.1"
    id := "course-of-action--x"
    created_by_ref := pb0.created_by
    created := 0
    modified := 0
    name := "playbook"
    extensions :=
      [("extension-definition--a", ext1), ("extension-definition--b", ext2)] }

/-- A ledger already holding the modified value of pb0 as shared. -/
def ledger0 : List Sharing :=
  [{ playbook_id := pb0.id, shared_versions := [pb0.modified] }]

/-- The TriggerResult of the C6 witness. -/
def trig0 : TriggerResult :=
  { response_playbook_id := "playbook--p1"
    response_execution_id := "exec--1"
    inserted := [{ playbook_id := "playbook--p1"
                   execution_id := "exec--1"
                   status := .ongoing
                   start_time := 5 }]
    monitors := [("exec--1", 5)] }

/-! Helper lemmas. -/

/-- A normally exited monitoring loop never reports Ongoing: the loop only
breaks on a non-ongoing status. -/
theorem monitoring_loop_ok_not_ongoing (env : Nat → Nat → FetchAttempt) :
    ∀ (fuel iter : Nat) (s : StatusType),
      monitoring_loop env iter fuel = .ok s → s ≠ StatusType.ongoing := by
  intro fuel
  induction fuel with
  | zero => intro iter s hs; simp [monitoring_loop] at hs
  | succ n ih =>
    intro iter s hs
    simp only [monitoring_loop] at hs
    cases hf : fetch_report (env iter) with
    | error e => rw [hf] at hs; cases hs
    | ok s0 =>
      rw [hf] at hs
      dsimp only at hs
      by_cases h0 : s0 = StatusType.ongoing
      · rw [if_pos h0] at hs
        exact ih (iter + 1) s hs
      · rw [if_neg h0] at hs
        cases hs
        exact h0

/-- update_one leaves modified_count at 0 when nothing matches the
filter. -/
theorem update_one_count_zero (f : Playbook → Bool) (new : Playbook) :
    ∀ l : List Playbook, (∀ x ∈ l, f x = false) →
      (update_one f new l).2 = 0 := by
  intro l
  induction l with
  | nil => intro _; rfl
  | cons d ds ih =>
    intro hl
    have hd : f d = false := hl d (List.mem_cons_self d ds)
    simp only [update_one, hd, Bool.false_eq_true, if_false]
    exact ih (fun x hx => hl x (List.mem_cons_of_mem d hx))

/-- After update_one reports modified_count = 1 for a filter the new
document itself satisfies, find_one with the same filter retrieves the
new document. -/
theorem find?_update_one_self (f : Playbook → Bool) (new : Playbook)
    (hnew : f new = true) :
    ∀ l : List Playbook, (update_one f new l).2 = 1 →
      (update_one f new l).1.find? f = some new := by
  intro l
  induction l with
  | nil => intro hc; simp [update_one] at hc
  | cons d ds ih =>
    intro hc
    by_cases hd : f d = true
    · simp only [update_one, hd, if_true]
      simp [List.find?, hnew]
    · have hd' : f d = false := by
        cases hfd : f d
        · rfl
        · exact absurd hfd hd
      simp only [update_one, hd', Bool.false_eq_true, if_false] at hc ⊢
      rw [List.find?_cons_of_neg _ (by simp [hd'])]
      exact ih hc

/-- After update_one reports modified_count = 1 for a sub-filter f of a
lookup predicate g, with at most one g-document in the list (all equal to
stored, the one find_one returns), find_one with g retrieves the new
document. -/
theorem find?_update_one_of_unique (g f : Playbook → Bool)
    (new stored : Playbook)
    (hsub : ∀ x, f x = true → g x = true) (hgnew : g new = true) :
    ∀ l : List Playbook,
      l.find? g = some stored →
      (∀ x ∈ l, g x = true → x = stored) →
      (update_one f new l).2 = 1 →
      (update_one f new l).1.find? g = some new := by
  intro l
  induction l with
  | nil => intro _ _ hc; simp [update_one] at hc
  | cons d ds ih =>
    intro hfind huniq hc
    by_cases hfd : f d = true
    · simp only [update_one, hfd, if_true]
      simp [List.find?, hgnew]
    · have hfd' : f d = false := by
        cases hx : f d
        · rfl
        · exact absurd hx hfd
      simp only [update_one, hfd', Bool.false_eq_true, if_false] at hc ⊢
      by_cases hgd : g d = true
      · exfalso
        have hds : d = stored := huniq d (List.mem_cons_self d ds) hgd
        have hfstored : f stored = false := hds ▸ hfd'
        have hall : ∀ x ∈ ds, f x = false := by
          intro x hx
          by_cases hgx : g x = true
          · rw [huniq x (List.mem_cons_of_mem d hx) hgx]
            exact hfstored
          · cases hfx : f x
            · rfl
            · exact absurd (hsub x hfx) hgx
        rw [update_one_count_zero f new ds hall] at hc
        exact Nat.zero_ne_one hc
      · have hgd' : g d = false := by
          cases hx : g d
          · rfl
          · exact absurd hx hgd
        rw [List.find?_cons_of_neg _ (by simp [hgd'])] at hfind
        rw [List.find?_cons_of_neg _ (by simp [hgd'])]
        exact ih hfind (fun x hx hgx => huniq x (List.mem_cons_of_mem d hx) hgx) hc

/-! Claim theorems. -/

/-- C1 (counterexample): decode(encode(p)) is not p, on two counts.  At
the concrete playbook pbRich (no extension definitions, so the payload
revalidates), the round trip yields a playbook whose name is the literal
"playbook" (the encoder hardcodes the STIX name) and whose
playbook_activities, derived_from, industry_sectors and markings are
reset to None, so it differs from pbRich.  And at pbExt, which carries
one extension definition, the round trip yields no playbook at all: the
payload was dumped with the attribute key my_schema while reconstruction
requires the alias schema, so the Playbook(...) call raises a
ValidationError. -/
theorem decode_encode_not_identity :
    stix_to_playbook_validated (playbook_to_stix 0 "c0" "e0" pbRich)
      = .ok { pbRich with
              name := "playbook"
              playbook_activities := none
              derived_from := none
              industry_sectors := none
              markings := none }
    ∧ pbRich.name = "containment-plan"
    ∧ ({ pbRich with
         name := "playbook"
         playbook_activities := none
         derived_from := none
         industry_sectors := none
         markings := none } : Playbook) ≠ pbRich
    ∧ stix_to_playbook_validated (playbook_to_stix 0 "c1" "e1" pbExt)
      = .error .validationError
    ∧ pbExt.extension_definitions
      = some [("extension-definition--d1", extDef0)] :=
  ⟨rfl, rfl, by decide, rfl, rfl⟩

/-- C1 (amended): when p carries no extension-definition entries,
decode(encode(p)) reproduces every field of p except that name becomes
the literal "playbook" and playbook_activities,
playbook_processing_summary, derived_from, related_to, industry_sectors,
external_references, markings and playbook_variables are reset to None;
when extension_definitions is non-empty, the reconstruction raises a
pydantic ValidationError (model_dump emits the attribute key my_schema
but validation requires the alias schema) and returns no playbook.  The
fresh envelope identifier and wrapper timestamps are discarded either
way. -/
theorem decode_encode_roundtrip_modulo (now : Timestamp)
    (coa_uuid ext_uuid : String) (p : Playbook) :
    stix_to_playbook_validated (playbook_to_stix now coa_uuid ext_uuid p)
      = match p.extension_definitions with
        | some (_ :: _) => .error .validationError
        | _ => .ok { p with
                     name := "playbook"
                     playbook_activities := none
                     playbook_processing_summary := none
                     derived_from := none
                     related_to := none
                     industry_sectors := none
                     external_references := none
                     markings := none
                     playbook_variables := none } := by
  have h1 : stix_to_playbook_validated (playbook_to_stix now coa_uuid ext_uuid p)
      = if dumped_extension_definitions_validate p.extension_definitions then
          .ok { p with
                name := "playbook"
                playbook_activities := none
                playbook_processing_summary := none
                derived_from := none
                related_to := none
                industry_sectors := none
                external_references := none
                markings := none
                playbook_variables := none }
        else .error .validationError := rfl
  rw [h1]
  cases p.extension_definitions with
  | none => rfl
  | some l =>
    cases l with
    | nil => rfl
    | cons d rest => rfl

/-- C2: the monitor performs exactly one record write, its status is
terminal (never Ongoing), and it carries end_time and runtime; every
failure mode - a fetch that still fails after the 3 retry attempts, the
exhaustion of the timeout budget, and any other exception - is converted
into that single terminal write, and the monitor returns a value rather
than raising, whatever the environment does. -/
theorem monitor_execution_single_terminal_write (execution_id : String)
    (start_time timeout_fuel : Nat) (env : Nat → Nat → FetchAttempt)
    (end_time : Nat) :
    ∃ s : StatusType,
      monitor_execution execution_id start_time timeout_fuel env end_time
        = [update_execution execution_id s end_time (end_time - start_time)]
      ∧ s ≠ StatusType.ongoing := by
  unfold monitor_execution
  cases hl : monitoring_loop env 0 timeout_fuel with
  | ok s =>
    exact ⟨s, rfl, monitoring_loop_ok_not_ongoing env timeout_fuel 0 s hl⟩
  | error e =>
    cases e with
    | timeout => exact ⟨.timeout_error, rfl, by simp⟩
    | http => exact ⟨.server_side_error, rfl, by simp⟩
    | client => exact ⟨.client_side_error, rfl, by simp⟩

/-- C6: a successful dispatch inserts exactly one Ongoing record with
start_time = now, schedules one monitor task, and returns the engine ids;
a transport failure raises 500 with nothing inserted and no monitor
started (the error branch produces no TriggerResult at all). -/
theorem trigger_playbook_atomic (eid pid : String) (now : Nat)
    (r : TriggerResult)
    (h : trigger_playbook (.ok eid pid) now = .ok r) :
    r.inserted = [{ playbook_id := pid
                    execution_id := eid
                    status := .ongoing
                    start_time := now }]
    ∧ r.monitors = [(eid, now)]
    ∧ r.response_playbook_id = pid
    ∧ r.response_execution_id = eid
    ∧ trigger_playbook .transport_failure now
        = .error ApiError.internalServerError := by
  simp only [trigger_playbook] at h
  cases h
  exact ⟨rfl, rfl, rfl, rfl, rfl⟩

/-- C6 (witness): the dispatch contract evaluated at a concrete engine
response. -/
theorem trigger_playbook_atomic_witness :
    trig0.inserted = [{ playbook_id := "playbook--p1"
                        execution_id := "exec--1"
                        status := .ongoing
                        start_time := 5 }]
    ∧ trig0.monitors = [("exec--1", 5)]
    ∧ trig0.response_playbook_id = "playbook--p1"
    ∧ trig0.response_execution_id = "exec--1"
    ∧ trigger_playbook .transport_failure 5
        = .error ApiError.internalServerError :=
  trigger_playbook_atomic "exec--1" "playbook--p1" 5 trig0 rfl

/-- C9 (counterexample): an envelope object with two extension blocks is
decoded successfully from its first block instead of failing; decode does
not reject an ambiguous-multiple extensions case. -/
theorem stix_to_playbook_multiple_extensions_ok :
    s9multi.extensions.length = 2
    ∧ stix_to_playbook s9multi = .ok (playbook_from_extension s9multi ext1) :=
  ⟨rfl, rfl⟩

/-- C9 (amended): decode fails (an unhandled exception surfaced as a 500,
not a dedicated DecodeError) only when the extensions block is empty; with
one or more extensions it uses the first block - in iteration order - and
succeeds, however many blocks are present. -/
theorem stix_to_playbook_uses_first_extension (s : StixPlaybook)
    (k : String) (ext : PlaybookExtension)
    (rest : List (String × PlaybookExtension))
    (hext : s.extensions = (k, ext) :: rest) :
    stix_to_playbook s = .ok (playbook_from_extension s ext)
    ∧ stix_to_playbook { s with extensions := [] }
        = .error DecodeFailure.emptyExtensions := by
  constructor
  · unfold stix_to_playbook
    rw [hext]
  · rfl

/-- C9 (witness): the amended decode contract evaluated at the concrete
two-extension object. -/
theorem stix_to_playbook_uses_first_extension_witness :
    stix_to_playbook s9multi = .ok (playbook_from_extension s9multi ext1)
    ∧ stix_to_playbook { s9multi with extensions := [] }
        = .error DecodeFailure.emptyExtensions :=
  stix_to_playbook_uses_first_extension s9multi "extension-definition--a"
    ext1 [("extension-definition--b", ext2)] rfl

/-- C4 (counterexample): share is not duplicate-guarded.  Sharing pb0
twice with the same modified value succeeds both times - the second call
returns 200 with a fresh envelope rather than failing with Conflict - and
the sharing ledger afterwards holds zero (not exactly one) occurrences of
that modified value, since share never touches the sharings collection. -/
theorem share_playbook_duplicate_not_rejected :
    share_playbook true [] 1 "c1" "e1" pb0
      = .ok ({ objects := [playbook_to_stix 1 "c1" "e1" pb0] }, [])
    ∧ share_playbook true [] 2 "c2" "e2" pb0
      = .ok ({ objects := [playbook_to_stix 2 "c2" "e2" pb0] }, [])
    ∧ shared_count [] pb0.id pb0.modified = 0 :=
  ⟨rfl, rfl, rfl⟩

/-- C4 (amended): share converts and transmits unconditionally: even when
the ledger already records the modified value of the playbook as shared,
the call succeeds again, re-transmits a fresh envelope, and leaves the
sharings ledger exactly as it was - no Conflict is raised and no ledger
entry is written. -/
theorem share_playbook_ignores_ledger (sharings : List Sharing)
    (now : Timestamp) (coa_uuid ext_uuid : String) (playbook : Playbook)
    (_halready : shared_flag sharings playbook = true) :
    share_playbook true sharings now coa_uuid ext_uuid playbook
      = .ok ({ objects := [playbook_to_stix now coa_uuid ext_uuid playbook] },
             sharings) := rfl

/-- C4 (witness): re-sharing an already-shared version at a concrete
ledger. -/
theorem share_playbook_ignores_ledger_witness :
    share_playbook true ledger0 3 "c1" "e1" pb0
      = .ok ({ objects := [playbook_to_stix 3 "c1" "e1" pb0] }, ledger0) :=
  share_playbook_ignores_ledger ledger0 3 "c1" "e1" pb0 (by decide)

/-- C7: an update against a stored playbook whose revoked flag is true is
rejected (HTTP 403, the Conflict class of the spec taxonomy for revoked)
whatever the payload is - the revoked check runs before every
timestamp/staleness validation and before any write, and an error result
carries no new Store, so the stored playbook and the history are
untouched. -/
theorem update_playbook_revoked_always_rejected (id : String)
    (playbook_update : Playbook) (s : Store) (stored : Playbook)
    (hfind : find_one_by_id s.playbooks id = some stored)
    (hrev : stored.revoked = some true) :
    update_playbook id playbook_update s = .error ApiError.forbiddenRevoked := by
  unfold update_playbook
  rw [hfind]
  simp [hrev]

/-- C7 (witness): updating the concrete revoked store with an otherwise
valid newer payload. -/
theorem update_playbook_revoked_always_rejected_witness :
    update_playbook "playbook--p1" pb1 sRev = .error ApiError.forbiddenRevoked :=
  update_playbook_revoked_always_rejected "playbook--p1" pb1 sRev pbRevoked
    rfl rfl

/-- C8 (counterexample): with three stored history entries and limit 2,
listHistory returns only the first entry: the current version pb2 is
excluded, but the genuinely prior version pb1 is silently dropped too,
because the code deletes the last element of the limit-truncated fetch
rather than the entry representing the live state. -/
theorem get_playbook_history_truncation_drops_prior :
    get_playbook_history "playbook--p1" 2 s8 = .ok [pb0]
    ∧ (historyForId s8.history "playbook--p1").dropLast = [pb0, pb1]
    ∧ ([pb0] : List Playbook) ≠ [pb0, pb1] :=
  ⟨rfl, rfl, by decide⟩

/-- C8 (amended): when the number of stored history entries for the id is
positive and at most the limit, listHistory returns exactly all prior
versions in insertion (oldest-first) order with the current (last
inserted) entry excluded; beyond the limit, later prior versions are
truncated away as the counterexample shows. -/
theorem get_playbook_history_within_limit (id : String) (limit : Nat)
    (s : Store)
    (hpos : 0 < (historyForId s.history id).length)
    (hle : (historyForId s.history id).length ≤ limit) :
    get_playbook_history id limit s
      = .ok (historyForId s.history id).dropLast := by
  unfold get_playbook_history
  rw [List.take_of_length_le hle]
  simp [hpos]

/-- C8 (witness): the amended listHistory contract at the concrete store
with three entries and limit 5. -/
theorem get_playbook_history_within_limit_witness :
    get_playbook_history "playbook--p1" 5 s8
      = .ok (historyForId s8.history "playbook--p1").dropLast :=
  get_playbook_history_within_limit "playbook--p1" 5 s8 (by decide) (by decide)

/-- C10: whenever created_after is provided, the constructed query holds
the filter lte created_until under its created key (the gte bound written
first is overwritten by the second branch, which also tests
created_after), including the comparison against a null created_until
when that argument is omitted; and the whole query is independent of the
value of created_after, so the lower bound never constrains the
results. -/
theorem search_playbooks_created_after_ineffective
    (name created_by : Option String) (a b : Nat) (created_until : Option Nat)
    (revoked : Option Bool) (labels : Option (List String)) :
    (search_playbooks_query name created_by (some a) created_until revoked
        labels).created
      = some (CreatedFilter.lte created_until)
    ∧ search_playbooks_query name created_by (some a) created_until revoked
        labels
      = search_playbooks_query name created_by (some b) created_until revoked
        labels := by
  unfold search_playbooks_query
  cases htn : truthyStr name <;> cases htc : truthyStr created_by <;>
    by_cases hr : revoked = some true <;> cases htl : truthyList labels <;>
    simp [htn, htc, hr, htl]

/-- C3: when an update for id succeeds - against a store holding exactly
one document for that id, with the payload addressed to that id - the
stored document becomes the payload, whose modified strictly exceeds the
previously stored modified and its own created, and a history snapshot of
the payload is appended; hence across any sequence of successful updates
the stored modified is strictly increasing.  An update whose modified is
not strictly newer than both is rejected before any write (the staleness
and order checks run first), and an error result carries no new Store, so
a failed update changes nothing. -/
theorem update_playbook_strictly_increases (id : String)
    (playbook_update : Playbook) (s s' : Store) (stored : Playbook)
    (hfind : find_one_by_id s.playbooks id = some stored)
    (huniq : ∀ x ∈ s.playbooks, x.id = id → x = stored)
    (hid : playbook_update.id = id)
    (hok : update_playbook id playbook_update s = .ok s') :
    find_one_by_id s'.playbooks id = some playbook_update
    ∧ stored.modified < playbook_update.modified
    ∧ playbook_update.created < playbook_update.modified
    ∧ s'.history = s.history ++ [playbook_update] := by
  unfold update_playbook at hok
  rw [hfind] at hok
  dsimp only [get_datetime_from_timestamp] at hok
  split at hok
  · cases hok
  split at hok
  · cases hok
  split at hok
  · cases hok
  split at hok
  · rename_i hrev h1 h2 h3
    cases hok
    refine ⟨?_, Nat.lt_of_not_le h2, Nat.lt_of_not_le h1, rfl⟩
    unfold find_one_by_id
    apply find?_update_one_of_unique (fun p => p.id == id) _ playbook_update
      stored
    · intro x hx
      simp only [Bool.and_eq_true] at hx
      exact hx.1.1
    · simp [hid]
    · exact hfind
    · intro x hx hgx
      exact huniq x hx (by simpa using hgx)
    · exact h3
  · cases hok

/-- C3 (witness): the update contract at the concrete one-document store,
updating pb0 to pb1. -/
theorem update_playbook_strictly_increases_witness :
    find_one_by_id s3'.playbooks "playbook--p1" = some pb1
    ∧ pb0.modified < pb1.modified
    ∧ pb1.created < pb1.modified
    ∧ s3'.history = s3.history ++ [pb1] :=
  update_playbook_strictly_increases "playbook--p1" pb1 s3 s3' pb0 rfl
    (by decide) rfl rfl

/-- C5 (counterexample): rollback does not always produce a modified
strictly greater than every previously recorded one, and it does not go
through the validation path of update: at the concrete store whose live
document carries modified = 100, rolling back the snapshot at history
index 0 with clock now = 50 succeeds (update would have rejected it as
stale since 50 is not greater than 100) and stores modified = 50, which
is smaller than the previously recorded 100. -/
theorem rollback_playbook_not_monotone :
    rollback_playbook 0 50 s5 = .ok s5'
    ∧ List.map Playbook.modified s5.history = [11, 100]
    ∧ find_one_by_id s5'.playbooks "playbook--p1" = some pbRestored
    ∧ pbRestored.modified = 50
    ∧ ¬ (100 < 50) :=
  ⟨rfl, rfl, rfl, rfl, by decide⟩

/-- C5 (amended): when rollback of the history entry at history_id
succeeds, the live document for the id of that snapshot becomes the
snapshot stamped with modified = now, and that restored snapshot is
appended to the history.  Rollback checks only liveness and the revoked
flag - not the staleness, timestamp-order or lineage-scoping checks of
update - so the new modified exceeds every previously recorded one only
when every previously recorded modified is below now. -/
theorem rollback_playbook_stamps_now (history_id : Nat) (now : Nat)
    (s s' : Store) (h : Playbook)
    (hget : s.history.get? history_id = some h)
    (hok : rollback_playbook history_id now s = .ok s') :
    find_one_by_id s'.playbooks h.id = some { h with modified := now }
    ∧ s'.history = s.history ++ [{ h with modified := now }] := by
  unfold rollback_playbook at hok
  rw [hget] at hok
  dsimp only [get_current_timestamp] at hok
  cases hfind : find_one_by_id s.playbooks h.id with
  | none => rw [hfind] at hok; cases hok
  | some existing =>
    rw [hfind] at hok
    dsimp only at hok
    split at hok
    · cases hok
    split at hok
    · rename_i hrev hc
      cases hok
      refine ⟨?_, rfl⟩
      unfold find_one_by_id
      apply find?_update_one_self
      · simp
      · exact hc
    · cases hok

/-- C5 (witness): the amended rollback contract at the concrete store,
restoring the pb0 snapshot at clock 50. -/
theorem rollback_playbook_stamps_now_witness :
    find_one_by_id s5'.playbooks pb0.id = some { pb0 with modified := 50 }
    ∧ s5'.history = s5.history ++ [{ pb0 with modified := 50 }] :=
  rollback_playbook_stamps_now 0 50 s5 s5' pb0 rfl rfl

end Cacao
